import Mathlib

/-!
Verification of the pbrt4 scene-loader (mxpv/pbrt4).

The development shallowly embeds the Rust sources:
  * `src/param.rs`   — parameter lists (`Param`, `ParamList`);
  * `src/parser.rs`  — the element (directive) vocabulary and `read_param_list`;
  * `src/scene.rs`   — the graphics-state machine driven by `Scene::load`.

Machine floats (`f32`) are embedded as rationals `ℚ`; every numeric operation
used by the claims (matrix products of small integral matrices, the cofactor
inverse) is exact in `f32` on the inputs considered, so `ℚ` is faithful there.
The two transcendental library routines used by the loader, `f32::sin_cos`
(inside `glam::Mat4::from_axis_angle`) and `glam::Vec3::normalize` (inside
`glam::Mat4::look_at_lh`), have no exact rational meaning; the embedding takes
them as an explicit parameter (`TrigOracle`), and every theorem below holds for
every oracle, so no property proved here depends on their values.

Rust panics (`unimplemented!`, `todo!`) are embedded as an explicit `panic`
outcome, distinct from returned error values (`Err(..)`), matching the
programs observable behaviour at the public interface.

The crate module `types` (entity constructors `Camera::new`, `Shape::new`,
`Material::new`, …) is declared in `lib.rs` but its source is not part of the
sources at hand; following the specification, which places per-type conversion
out of scope and describes it as a pure function of (type name, merged
parameter table), those constructors are modelled as records capturing their
inputs (see the `Modelled from the spec:` comments).
-/

set_option maxHeartbeats 1000000

namespace Pbrt4

/-! ### Vectors and matrices, translated from glam (scalar path) -/

/-- 3-component vector, `glam::Vec3` with `f32` embedded as `ℚ`. -/
structure Vec3 where
  x : ℚ
  y : ℚ
  z : ℚ
deriving DecidableEq

/-- 4-component vector, `glam::Vec4`. -/
structure Vec4 where
  x : ℚ
  y : ℚ
  z : ℚ
  w : ℚ
deriving DecidableEq

/-- Componentwise addition (glam `Vec4::add`). -/
def Vec4.add (a b : Vec4) : Vec4 :=
  ⟨a.x + b.x, a.y + b.y, a.z + b.z, a.w + b.w⟩

/-- Componentwise subtraction (glam `Vec4::sub`). -/
def Vec4.sub (a b : Vec4) : Vec4 :=
  ⟨a.x - b.x, a.y - b.y, a.z - b.z, a.w - b.w⟩

/-- Componentwise multiplication (glam `Vec4::mul` with a vector argument). -/
def Vec4.mulV (a b : Vec4) : Vec4 :=
  ⟨a.x * b.x, a.y * b.y, a.z * b.z, a.w * b.w⟩

/-- Multiplication by a scalar (glam `Vec4::mul` with an `f32` argument). -/
def Vec4.mulS (a : Vec4) (s : ℚ) : Vec4 :=
  ⟨a.x * s, a.y * s, a.z * s, a.w * s⟩

/-- Vector subtraction on `Vec3` (glam). -/
def Vec3.sub (a b : Vec3) : Vec3 :=
  ⟨a.x - b.x, a.y - b.y, a.z - b.z⟩

/-- Negation on `Vec3` (glam). -/
def Vec3.neg (a : Vec3) : Vec3 :=
  ⟨-a.x, -a.y, -a.z⟩

/-- Dot product (glam `Vec3::dot`). -/
def Vec3.dot (a b : Vec3) : ℚ :=
  a.x * b.x + a.y * b.y + a.z * b.z

/-- Cross product (glam `Vec3::cross`). -/
def Vec3.cross (a b : Vec3) : Vec3 :=
  ⟨a.y * b.z - a.z * b.y, a.z * b.x - a.x * b.z, a.x * b.y - a.y * b.x⟩

/-- Column-major 4×4 matrix, `glam::Mat4`: four column vectors. -/
structure Mat4 where
  xAxis : Vec4
  yAxis : Vec4
  zAxis : Vec4
  wAxis : Vec4
deriving DecidableEq

/-- Identity matrix, `glam::Mat4::IDENTITY`; also `Mat4::default()`, which Rust's
`State::default()` uses for the initial current transform. -/
def Mat4.identity : Mat4 :=
  ⟨⟨1, 0, 0, 0⟩, ⟨0, 1, 0, 0⟩, ⟨0, 0, 1, 0⟩, ⟨0, 0, 0, 1⟩⟩

/-- Matrix-vector product `glam::Mat4::mul_vec4`: `x_axis*v.x + y_axis*v.y + z_axis*v.z + w_axis*v.w`. -/
def Mat4.mulVec4 (m : Mat4) (v : Vec4) : Vec4 :=
  (((m.xAxis.mulS v.x).add (m.yAxis.mulS v.y)).add (m.zAxis.mulS v.z)).add
    (m.wAxis.mulS v.w)

/-- Matrix product `glam::Mat4::mul_mat4`: columns of the product are `self.mul_vec4` of the
right factor's columns. -/
def Mat4.mul (a b : Mat4) : Mat4 :=
  ⟨a.mulVec4 b.xAxis, a.mulVec4 b.yAxis, a.mulVec4 b.zAxis, a.mulVec4 b.wAxis⟩

instance : Mul Mat4 := ⟨Mat4.mul⟩

/-- Translation matrix, `glam::Mat4::from_translation`. -/
def Mat4.from_translation (t : Vec3) : Mat4 :=
  ⟨⟨1, 0, 0, 0⟩, ⟨0, 1, 0, 0⟩, ⟨0, 0, 1, 0⟩, ⟨t.x, t.y, t.z, 1⟩⟩

/-- Scaling matrix, `glam::Mat4::from_scale`. -/
def Mat4.from_scale (s : Vec3) : Mat4 :=
  ⟨⟨s.x, 0, 0, 0⟩, ⟨0, s.y, 0, 0⟩, ⟨0, 0, s.z, 0⟩, ⟨0, 0, 0, 1⟩⟩

/-- Matrix from a column-major array, `glam::Mat4::from_cols_array` (column-major array of 16 scalars). -/
def Mat4.from_cols_array (m : Fin 16 → ℚ) : Mat4 :=
  ⟨⟨m 0, m 1, m 2, m 3⟩, ⟨m 4, m 5, m 6, m 7⟩,
   ⟨m 8, m 9, m 10, m 11⟩, ⟨m 12, m 13, m 14, m 15⟩⟩

/-- The two `f32` library routines with no exact rational counterpart, taken
as parameters of the embedding: `sinCos` stands for `f32::sin_cos` and
`normalize` for `glam::Vec3::normalize`.  Every theorem in this file is
proved for an arbitrary oracle. -/
structure TrigOracle where
  sinCos : ℚ → ℚ × ℚ
  normalize : Vec3 → Vec3

/-- A throwaway oracle used only to instantiate universally quantified
theorems at concrete inputs. -/
def defaultOracle : TrigOracle :=
  ⟨fun _ => (0, 1), fun v => v⟩

/-- Rotation matrix, `glam::Mat4::from_axis_angle` (via `Mat3::from_axis_angle`), with
`(sin, cos) = angle.sin_cos()` supplied by the oracle. -/
def Mat4.from_axis_angle (orc : TrigOracle) (axis : Vec3) (angle : ℚ) : Mat4 :=
  let sc := orc.sinCos angle
  let sin := sc.1
  let cos := sc.2
  let xsin := axis.x * sin
  let ysin := axis.y * sin
  let zsin := axis.z * sin
  let x2 := axis.x * axis.x
  let y2 := axis.y * axis.y
  let z2 := axis.z * axis.z
  let omc := 1 - cos
  let xyomc := axis.x * axis.y * omc
  let xzomc := axis.x * axis.z * omc
  let yzomc := axis.y * axis.z * omc
  ⟨⟨x2 * omc + cos, xyomc + zsin, xzomc - ysin, 0⟩,
   ⟨xyomc - zsin, y2 * omc + cos, yzomc + xsin, 0⟩,
   ⟨xzomc + ysin, yzomc - xsin, z2 * omc + cos, 0⟩,
   ⟨0, 0, 0, 1⟩⟩

/-- View matrix `glam::Mat4::look_to_rh`, with `Vec3::normalize` supplied by the oracle. -/
def Mat4.look_to_rh (orc : TrigOracle) (eye dir up : Vec3) : Mat4 :=
  let f := orc.normalize dir
  let s := orc.normalize (f.cross up)
  let u := s.cross f
  ⟨⟨s.x, u.x, -f.x, 0⟩,
   ⟨s.y, u.y, -f.y, 0⟩,
   ⟨s.z, u.z, -f.z, 0⟩,
   ⟨-(eye.dot s), -(eye.dot u), eye.dot f, 1⟩⟩

/-- View matrix `glam::Mat4::look_to_lh eye dir up = look_to_rh eye (-dir) up`. -/
def Mat4.look_to_lh (orc : TrigOracle) (eye dir up : Vec3) : Mat4 :=
  Mat4.look_to_rh orc eye dir.neg up

/-- View matrix `glam::Mat4::look_at_lh eye center up = look_to_lh eye (center - eye) up`. -/
def Mat4.look_at_lh (orc : TrigOracle) (eye center up : Vec3) : Mat4 :=
  Mat4.look_to_lh orc eye (center.sub eye) up

/-- Matrix inverse, `glam::Mat4::inverse`, the scalar (GLM-derived) cofactor implementation.
`f32` division is embedded as total division on `ℚ`; the determinant is
nonzero at every input this development evaluates the inverse on. -/
def Mat4.inverse (m : Mat4) : Mat4 :=
  let m00 := m.xAxis.x
  let m01 := m.xAxis.y
  let m02 := m.xAxis.z
  let m03 := m.xAxis.w
  let m10 := m.yAxis.x
  let m11 := m.yAxis.y
  let m12 := m.yAxis.z
  let m13 := m.yAxis.w
  let m20 := m.zAxis.x
  let m21 := m.zAxis.y
  let m22 := m.zAxis.z
  let m23 := m.zAxis.w
  let m30 := m.wAxis.x
  let m31 := m.wAxis.y
  let m32 := m.wAxis.z
  let m33 := m.wAxis.w
  let coef00 := m22 * m33 - m32 * m23
  let coef02 := m12 * m33 - m32 * m13
  let coef03 := m12 * m23 - m22 * m13
  let coef04 := m21 * m33 - m31 * m23
  let coef06 := m11 * m33 - m31 * m13
  let coef07 := m11 * m23 - m21 * m13
  let coef08 := m21 * m32 - m31 * m22
  let coef10 := m11 * m32 - m31 * m12
  let coef11 := m11 * m22 - m21 * m12
  let coef12 := m20 * m33 - m30 * m23
  let coef14 := m10 * m33 - m30 * m13
  let coef15 := m10 * m23 - m20 * m13
  let coef16 := m20 * m32 - m30 * m22
  let coef18 := m10 * m32 - m30 * m12
  let coef19 := m10 * m22 - m20 * m12
  let coef20 := m20 * m31 - m30 * m21
  let coef22 := m10 * m31 - m30 * m11
  let coef23 := m10 * m21 - m20 * m11
  let fac0 : Vec4 := ⟨coef00, coef00, coef02, coef03⟩
  let fac1 : Vec4 := ⟨coef04, coef04, coef06, coef07⟩
  let fac2 : Vec4 := ⟨coef08, coef08, coef10, coef11⟩
  let fac3 : Vec4 := ⟨coef12, coef12, coef14, coef15⟩
  let fac4 : Vec4 := ⟨coef16, coef16, coef18, coef19⟩
  let fac5 : Vec4 := ⟨coef20, coef20, coef22, coef23⟩
  let vec0 : Vec4 := ⟨m10, m00, m00, m00⟩
  let vec1 : Vec4 := ⟨m11, m01, m01, m01⟩
  let vec2 : Vec4 := ⟨m12, m02, m02, m02⟩
  let vec3 : Vec4 := ⟨m13, m03, m03, m03⟩
  let inv0 := ((vec1.mulV fac0).sub (vec2.mulV fac1)).add (vec3.mulV fac2)
  let inv1 := ((vec0.mulV fac0).sub (vec2.mulV fac3)).add (vec3.mulV fac4)
  let inv2 := ((vec0.mulV fac1).sub (vec1.mulV fac3)).add (vec3.mulV fac5)
  let inv3 := ((vec0.mulV fac2).sub (vec1.mulV fac4)).add (vec2.mulV fac5)
  let signA : Vec4 := ⟨1, -1, 1, -1⟩
  let signB : Vec4 := ⟨-1, 1, -1, 1⟩
  let inverse : Mat4 :=
    ⟨inv0.mulV signA, inv1.mulV signB, inv2.mulV signA, inv3.mulV signB⟩
  let col0 : Vec4 :=
    ⟨inverse.xAxis.x, inverse.yAxis.x, inverse.zAxis.x, inverse.wAxis.x⟩
  let dot0 := m.xAxis.mulV col0
  let dot1 := dot0.x + dot0.y + dot0.z + dot0.w
  let rcpDet := 1 / dot1
  ⟨inverse.xAxis.mulS rcpDet, inverse.yAxis.mulS rcpDet,
   inverse.zAxis.mulS rcpDet, inverse.wAxis.mulS rcpDet⟩

/-! ### Errors (`src/error.rs`)

The enum as in `error.rs`, plus the two variants that `scene.rs` and
`parser.rs` construct (`TooManyEndAttributes`, `UnexpectedToken`): those two
are referenced by repository code whose enum revision is not in the snapshot,
so they are included to make the loader's returns representable. -/

inductive Err where
  | endOfFile
  | noToken
  | invalidToken
  | parseFloat
  | parseInt
  | parseBool
  | unknownDirective
  | invalidString
  | invalidOptionValue
  | unknownCoordinateSystem
  | invalidParamName
  | invalidParamType
  | duplicatedParamName
  | tooManyEndAttributes
  | unexpectedToken
deriving DecidableEq

/-! ### Parameters (`src/param.rs`) -/

/-- From `param.rs`: `ParamType`. -/
inductive ParamType where
  | boolean
  | float
  | integer
  | point2
  | point3
  | vector2
  | vector3
  | normal3
  | spectrum
  | rgb
  | blackbody
  | string
  | texture
deriving DecidableEq

/-- From `param.rs`: `Values`, a type-homogeneous value container. -/
inductive Values where
  | floats (v : List ℚ)
  | integers (v : List ℤ)
  | strings (v : List String)
  | booleans (v : List Bool)
deriving DecidableEq

/-- From `param.rs`: `Param` — name, declared type, values. -/
structure Param where
  name : String
  ty : ParamType
  values : Values
deriving DecidableEq

/-- Convenience constructor for a float-typed parameter, as produced by
`Param::new("float <name>")` followed by `add_token` calls. -/
def floatParam (name : String) (v : List ℚ) : Param :=
  ⟨name, ParamType.float, Values.floats v⟩

/-- From `param.rs`: `Param::as_floats`. -/
def Param.as_floats (p : Param) : Option (List ℚ) :=
  match p.values with
  | Values.floats v => some v
  | _ => none

/-- From `param.rs`: `ParamList` is a `HashMap<&str, Param>`; embedded as a list of
parameters with distinct names (the map invariant), extensionally equal to the
hash map via `ParamList.get`. -/
abbrev ParamList := List Param

/-- From `param.rs`: `ParamList::get` — lookup by name. -/
def ParamList.get (l : ParamList) (n : String) : Option Param :=
  l.find? (fun p => p.name = n)

/-- From `param.rs`: `ParamList::add` — `HashMap::insert` returning `Some` old
value means the name already existed, in which case the duplicate-parameter
error is returned (and the whole list is discarded by every caller). -/
def ParamList.add (l : ParamList) (p : Param) : Except Err ParamList :=
  if l.any (fun q => q.name = p.name) then Except.error Err.duplicatedParamName
  else Except.ok (l ++ [p])

/-- Plain `HashMap::insert`: overwrite the entry of the same name, or append
when no entry has the name. -/
def ParamList.insertOver : ParamList → Param → ParamList
  | [], p => [p]
  | q :: l, p => if q.name = p.name then p :: l else q :: ParamList.insertOver l p

/-- From `param.rs`: `ParamList::extend` — insert every entry of `other` into
`self`, overwriting entries sharing a name. -/
def ParamList.extend (l other : ParamList) : ParamList :=
  other.foldl ParamList.insertOver l

/-- From `param.rs`: `ParamList::floats`. -/
def ParamList.floats (l : ParamList) (n : String) : Option (List ℚ) :=
  (l.get n).bind Param.as_floats

/-- From `parser.rs`: `Parser::read_param_list`, modelled from the point where the
individual parameters have been read by `read_param`: the greedy loop adds
each parameter to the table in order with `ParamList::add`, propagating its
error. -/
def read_param_list_from (acc : ParamList) : List Param → Except Err ParamList
  | [] => Except.ok acc
  | p :: rest =>
    match acc.add p with
    | Except.error e => Except.error e
    | Except.ok acc' => read_param_list_from acc' rest

/-- The parameter-list loop of `Parser::read_param_list`, starting from the
empty table. -/
def read_param_list (ps : List Param) : Except Err ParamList :=
  read_param_list_from [] ps

/-! ### Name registries

`scene.rs` keeps `HashMap<String, _>` registries (named coordinate systems,
textures, materials, mediums); embedded as association lists with
`HashMap::insert`/`get` semantics. -/

/-- Lookup, `HashMap::get`, on an association list. -/
def lookupKV {α : Type} (l : List (String × α)) (k : String) : Option α :=
  (l.find? (fun e => e.1 = k)).map Prod.snd

/-- Insertion, `HashMap::insert`, on an association list: overwrite the entry of the
same key, or append when no entry has the key. -/
def insertKV {α : Type} : List (String × α) → String → α → List (String × α)
  | [], k, v => [(k, v)]
  | e :: l, k, v => if e.1 = k then (k, v) :: l else e :: insertKV l k v

/-! ### Typed entities

Modelled from the spec: the crate's `types` module (declared `pub mod types`
in `lib.rs`) is not among the sources at hand.  The specification (§1, §6)
places the per-type conversion logic out of scope and fixes only its
boundary: a pure function of the type name and the merged parameter table
(plus, for materials, the name→texture-index map) producing a typed entity.
Each constructor is therefore modelled as a record capturing exactly those
inputs. -/

structure Camera where
  ty : String
  params : ParamList
deriving DecidableEq

structure Film where
  ty : String
  params : ParamList
deriving DecidableEq

structure Integrator where
  ty : String
  params : ParamList
deriving DecidableEq

structure Accelerator where
  ty : String
  params : ParamList
deriving DecidableEq

structure Sampler where
  ty : String
  params : ParamList
deriving DecidableEq

structure Texture where
  name : String
  ty : String
  class' : String
  params : ParamList
deriving DecidableEq

structure Material where
  ty : String
  params : ParamList
  namedTextures : List (String × Nat)
deriving DecidableEq

structure Light where
  ty : String
  params : ParamList
deriving DecidableEq

structure AreaLight where
  ty : String
  params : ParamList
deriving DecidableEq

structure Medium where
  params : ParamList
deriving DecidableEq

structure Shape where
  ty : String
  params : ParamList
deriving DecidableEq

/-! ### Scene aggregate (`src/scene.rs`) -/

/-- From `scene.rs`: `CameraEntity`. -/
structure CameraEntity where
  params : Camera
  transform : Mat4
deriving DecidableEq

/-- From `scene.rs`: `ShapeEntity`. -/
structure ShapeEntity where
  params : Shape
  reverse_orientation : Bool
  material_index : Option Nat
  area_light_index : Option Nat
deriving DecidableEq

/-- From `scene.rs`: `Scene`.  Modelled from the spec: the `Options` aggregate
lives in the missing `types` module; §3 describes it as "global options"
accumulated by the `Option` directive, modelled as the list of applied
option parameters. -/
structure Scene where
  options : List Param
  camera : Option CameraEntity
  film : Option Film
  integrator : Option Integrator
  accelerator : Option Accelerator
  sampler : Option Sampler
  textures : List Texture
  materials : List Material
  lights : List Light
  area_lights : List AreaLight
  mediums : List Medium
  shapes : List ShapeEntity
deriving DecidableEq

/-- The value of `Scene::default()`. -/
def defaultScene : Scene :=
  ⟨[], none, none, none, none, none, [], [], [], [], [], []⟩

/-- From `scene.rs`: `State`, the graphics state. -/
structure State where
  reverse_orientation : Bool
  transform_matrix : Mat4
  current_inside_medium : Option String
  current_outside_medium : Option String
  material_index : Option Nat
  area_light_index : Option Nat
  shape_params : ParamList
  light_params : ParamList
  material_params : ParamList
  medium_params : ParamList
  texture_params : ParamList
deriving DecidableEq

/-- The value of `State::default()`: `Mat4::default()` is the identity, every option is
`None`, every table empty. -/
def defaultState : State :=
  ⟨false, Mat4.identity, none, none, none, none, [], [], [], [], []⟩

/-! ### Directives (`src/parser.rs`: `Element`) -/

/-- From `parser.rs`: the `Element` union of parsed directives. -/
inductive Element where
  | include' (path : String)
  | import' (path : String)
  | option (param : Param)
  | film (ty : String) (params : ParamList)
  | colorSpace (ty : String)
  | camera (ty : String) (params : ParamList)
  | sampler (ty : String) (params : ParamList)
  | integrator (ty : String) (params : ParamList)
  | accelerator (ty : String) (params : ParamList)
  | coordinateSystem (name : String)
  | coordSysTransform (name : String)
  | pixelFilter (name : String)
  | identity
  | translate (v : Vec3)
  | scale (v : Vec3)
  | rotate (angle : ℚ) (v : Vec3)
  | lookAt (eye look_at up : Vec3)
  | transform (m : Fin 16 → ℚ)
  | concatTransform (m : Fin 16 → ℚ)
  | transformTimes (start finish : ℚ)
  | activeTransform (ty : String)
  | reverseOrientation
  | worldBegin
  | attributeBegin
  | attributeEnd
  | attribute (target : String) (params : ParamList)
  | lightSource (ty : String) (params : ParamList)
  | areaLightSource (ty : String) (params : ParamList)
  | material (ty : String) (params : ParamList)
  | makeNamedMaterial (name : String) (params : ParamList)
  | namedMaterial (name : String)
  | texture (name ty class' : String) (params : ParamList)
  | shape (name : String) (params : ParamList)
  | objectBegin (name : String)
  | objectEnd
  | objectInstance (name : String)
  | makeNamedMedium (name : String) (params : ParamList)
  | mediumInterface (interior exterior : String)

/-! ### The graphics-state machine (`Scene::load`, `src/scene.rs` 89–401) -/

/-- The loader state outside the graphics state: the name registries, the
scene under construction, and the `is_world_block` flag (which is *not* part
of the scoped graphics state). -/
structure Regs where
  coordSystems : List (String × Mat4)
  namedTextures : List (String × Nat)
  namedMaterials : List (String × Nat)
  namedMediums : List (String × Nat)
  scene : Scene
  isWorldBlock : Bool
deriving DecidableEq

/-- The loader's registries and scene exactly after `Scene::load`'s
initialisation. -/
def defaultRegs : Regs :=
  ⟨[], [], [], [], defaultScene, false⟩

/-- Outcome of processing one directive in `Scene::load`'s match statement.
`panic` is a Rust panic (`unimplemented!` / `todo!`); `scopeBegin`/`scopeEnd`
are the stack operations of `AttributeBegin`/`AttributeEnd`, performed by
`run`; `pushInclude` is the `Include` arm, which suspends the current parser
and pushes a new one (file IO, not modelled further). -/
inductive StepOut where
  | ok (s : State) (r : Regs)
  | err (e : Err)
  | panic
  | scopeBegin
  | scopeEnd
  | pushInclude (path : String)
deriving DecidableEq

/-- One iteration of the `match element` statement of `Scene::load`
(`scene.rs` 122–394), arm by arm. -/
def step (orc : TrigOracle) (s : State) (r : Regs) : Element → StepOut
  | Element.attributeBegin => StepOut.scopeBegin
  | Element.attributeEnd => StepOut.scopeEnd
  | Element.attribute target params =>
    if target = "shape" then
      StepOut.ok { s with shape_params := s.shape_params.extend params } r
    else if target = "light" then
      StepOut.ok { s with light_params := s.light_params.extend params } r
    else if target = "material" then
      StepOut.ok { s with material_params := s.material_params.extend params } r
    else if target = "medium" then
      StepOut.ok { s with medium_params := s.medium_params.extend params } r
    else if target = "texture" then
      StepOut.ok { s with texture_params := s.texture_params.extend params } r
    else StepOut.panic
  | Element.reverseOrientation =>
    StepOut.ok { s with reverse_orientation := !s.reverse_orientation } r
  | Element.translate v =>
    StepOut.ok
      { s with transform_matrix := s.transform_matrix * Mat4.from_translation v } r
  | Element.identity =>
    StepOut.ok { s with transform_matrix := Mat4.identity } r
  | Element.transform m =>
    StepOut.ok { s with transform_matrix := Mat4.from_cols_array m } r
  | Element.concatTransform m =>
    StepOut.ok
      { s with transform_matrix := s.transform_matrix * Mat4.from_cols_array m } r
  | Element.scale v =>
    StepOut.ok
      { s with transform_matrix := s.transform_matrix * Mat4.from_scale v } r
  | Element.rotate angle v =>
    StepOut.ok
      { s with
        transform_matrix := s.transform_matrix * Mat4.from_axis_angle orc v angle } r
  | Element.lookAt eye look_at up =>
    StepOut.ok
      { s with
        transform_matrix :=
          s.transform_matrix * Mat4.look_at_lh orc eye look_at up } r
  | Element.coordinateSystem name =>
    StepOut.ok s
      { r with coordSystems := insertKV r.coordSystems name s.transform_matrix }
  | Element.coordSysTransform name =>
    match lookupKV r.coordSystems name with
    | some mat => StepOut.ok { s with transform_matrix := mat } r
    | none => StepOut.panic
  | Element.camera ty params =>
    let world_from_camera := s.transform_matrix.inverse
    StepOut.ok s
      { r with
        coordSystems := insertKV r.coordSystems "camera" world_from_camera
        scene :=
          { r.scene with
            camera := some ⟨⟨ty, params⟩, world_from_camera⟩ } }
  | Element.film ty params =>
    StepOut.ok s { r with scene := { r.scene with film := some ⟨ty, params⟩ } }
  | Element.integrator ty params =>
    StepOut.ok s
      { r with scene := { r.scene with integrator := some ⟨ty, params⟩ } }
  | Element.accelerator ty params =>
    StepOut.ok s
      { r with scene := { r.scene with accelerator := some ⟨ty, params⟩ } }
  | Element.pixelFilter _ => StepOut.panic
  | Element.colorSpace _ => StepOut.panic
  | Element.sampler ty params =>
    StepOut.ok s
      { r with scene := { r.scene with sampler := some ⟨ty, params⟩ } }
  | Element.transformTimes _ _ => StepOut.panic
  | Element.activeTransform _ => StepOut.panic
  | Element.include' path => StepOut.pushInclude path
  | Element.import' _ => StepOut.panic
  | Element.worldBegin =>
    StepOut.ok { s with transform_matrix := Mat4.identity }
      { r with isWorldBlock := true }
  | Element.option param =>
    StepOut.ok s
      { r with scene := { r.scene with options := r.scene.options ++ [param] } }
  | Element.texture name ty class' params =>
    let params' := params.extend s.texture_params
    let index := r.scene.textures.length
    StepOut.ok s
      { r with
        scene :=
          { r.scene with
            textures := r.scene.textures ++ [⟨name, ty, class', params'⟩] }
        namedTextures := insertKV r.namedTextures name index }
  | Element.material ty params =>
    let params' := params.extend s.material_params
    let index := r.scene.materials.length
    StepOut.ok { s with material_index := some index }
      { r with
        scene :=
          { r.scene with
            materials :=
              r.scene.materials ++ [⟨ty, params', r.namedTextures⟩] } }
  | Element.makeNamedMaterial name params =>
    let params' := params.extend s.material_params
    let index := r.scene.materials.length
    StepOut.ok s
      { r with
        scene :=
          { r.scene with
            materials :=
              r.scene.materials ++ [⟨name, params', r.namedTextures⟩] }
        namedMaterials := insertKV r.namedMaterials name index }
  | Element.namedMaterial name =>
    StepOut.ok { s with material_index := lookupKV r.namedMaterials name } r
  | Element.lightSource ty params =>
    StepOut.ok s
      { r with
        scene := { r.scene with lights := r.scene.lights ++ [⟨ty, params⟩] } }
  | Element.areaLightSource ty params =>
    let params' := params.extend s.light_params
    let index := r.scene.area_lights.length
    StepOut.ok { s with area_light_index := some index }
      { r with
        scene :=
          { r.scene with
            area_lights := r.scene.area_lights ++ [⟨ty, params'⟩] } }
  | Element.shape ty params =>
    let params' := params.extend s.shape_params
    StepOut.ok s
      { r with
        scene :=
          { r.scene with
            shapes :=
              r.scene.shapes ++
                [⟨⟨ty, params'⟩, s.reverse_orientation, s.material_index,
                  s.area_light_index⟩] } }
  | Element.objectBegin _ => StepOut.panic
  | Element.objectEnd => StepOut.panic
  | Element.objectInstance _ => StepOut.panic
  | Element.makeNamedMedium name params =>
    let params' := params.extend s.medium_params
    let index := r.scene.mediums.length
    StepOut.ok s
      { r with
        scene :=
          { r.scene with mediums := r.scene.mediums ++ [⟨params'⟩] }
        namedMediums := insertKV r.namedMediums name index }
  | Element.mediumInterface interior exterior =>
    StepOut.ok
      { s with
        current_inside_medium := some interior
        current_outside_medium := some exterior } r

/-- The loader's mutable configuration: the current graphics state, the
attribute-scope stack (`states_stack`, top of stack first), and the rest. -/
structure Config where
  state : State
  stack : List State
  regs : Regs
deriving DecidableEq

/-- Result of running a sequence of directives. `suspendInclude` marks an
`Include` directive: the real loader pushes a parser frame there (file IO,
out of this model's scope); no claim below runs through it. -/
inductive RunOut where
  | ok (cfg : Config)
  | err (e : Err)
  | panic
  | suspendInclude (path : String) (cfg : Config)
deriving DecidableEq

/-- Driver loop of `Scene::load` over a sequence of already-parsed directives:
process each element with `step`; `AttributeBegin` pushes a copy of the
current state, `AttributeEnd` pops (or returns `TooManyEndAttributes` when
the stack is empty); errors and panics abort. -/
def run (orc : TrigOracle) (cfg : Config) : List Element → RunOut
  | [] => RunOut.ok cfg
  | e :: rest =>
    match step orc cfg.state cfg.regs e with
    | StepOut.ok s' r' => run orc ⟨s', cfg.stack, r'⟩ rest
    | StepOut.err er => RunOut.err er
    | StepOut.panic => RunOut.panic
    | StepOut.scopeBegin =>
      run orc ⟨cfg.state, cfg.state :: cfg.stack, cfg.regs⟩ rest
    | StepOut.scopeEnd =>
      match cfg.stack with
      | [] => RunOut.err Err.tooManyEndAttributes
      | s' :: stk => run orc ⟨s', stk, cfg.regs⟩ rest
    | StepOut.pushInclude p => RunOut.suspendInclude p cfg

/-- The configuration at the start of `Scene::load`. -/
def initConfig : Config :=
  ⟨defaultState, [], defaultRegs⟩

/-! ### The gzip suffix check of the `Include` arm (`scene.rs` 253–261)

The arm computes `path.extension()` (Rust `std::path::Path::extension`) and
takes the `todo!("Gzip compression")` branch when that extension
`ends_with(".gz")`. -/

/-- Split a file name at its *last* `.`: `some (before, after)`, or `none`
when the name contains no `.`.  This is the splitting underlying Rust's
`Path::extension`. -/
def splitLastDot : List Char → Option (List Char × List Char)
  | [] => none
  | c :: cs =>
    match splitLastDot cs with
    | some (b, a) => some (c :: b, a)
    | none => if c = '.' then some ([], cs) else none

/-- Rust `Path::extension` on the path's final component: the portion after
the last `.`, or `none` when there is no `.` or the only `.` starts the file
name. -/
def extension (name : List Char) : Option (List Char) :=
  match splitLastDot name with
  | some (b, a) => if b = [] then none else some a
  | none => none

/-- The condition guarding `todo!("Gzip compression")` in the `Include` arm:
`ext.ends_with(".gz")` applied to `path.extension()`. -/
def gzCheckTriggers (name : List Char) : Bool :=
  match extension name with
  | some ext => List.isSuffixOf ".gz".toList ext
  | none => false

/-! ### Shared lemmas -/

/-- Unfolding lemma for the `Mul Mat4` instance. -/
theorem Mat4.mul_def (a b : Mat4) : a * b = Mat4.mul a b := rfl

/-- Inserting a parameter makes it the entry found under its own name. -/
theorem ParamList.get_insertOver_same (l : ParamList) (p : Param) :
    ParamList.get (l.insertOver p) p.name = some p := by
  induction l with
  | nil => simp [ParamList.insertOver, ParamList.get, List.find?]
  | cons q l ih =>
    by_cases h : q.name = p.name
    · simp [ParamList.insertOver, h, ParamList.get, List.find?]
    · simp only [ParamList.insertOver, if_neg h]
      simpa [ParamList.get, List.find?, h] using ih

/-- Inserting a parameter leaves every other name's entry unchanged. -/
theorem ParamList.get_insertOver_ne (l : ParamList) (p : Param) (n : String)
    (h : n ≠ p.name) :
    ParamList.get (l.insertOver p) n = ParamList.get l n := by
  induction l with
  | nil => simp [ParamList.insertOver, ParamList.get, List.find?, Ne.symm h]
  | cons q l ih =>
    by_cases hq : q.name = p.name
    · simp [ParamList.insertOver, hq, ParamList.get, List.find?, Ne.symm h]
    · by_cases hn : q.name = n
      · simp only [ParamList.insertOver, if_neg hq]
        simp [ParamList.get, List.find?, hn]
      · simp only [ParamList.insertOver, if_neg hq]
        simpa [ParamList.get, List.find?, hn] using ih

/-- A name that occurs in no parameter of the list has no entry. -/
theorem ParamList.get_eq_none (l : ParamList) (n : String)
    (h : n ∉ l.map Param.name) : ParamList.get l n = none := by
  induction l with
  | nil => simp [ParamList.get, List.find?]
  | cons q l ih =>
    simp only [List.map, List.mem_cons, not_or] at h
    simpa [ParamList.get, List.find?, Ne.symm h.1] using ih h.2

/-- Lookup through `ParamList.extend`: provided `other` has pairwise distinct
names (the `HashMap` invariant), the entry of `other` wins whenever both
tables bind the name, `l`'s entry surfaces otherwise. -/
theorem ParamList.get_extend (other : ParamList) :
    ∀ (l : ParamList) (n : String), (other.map Param.name).Nodup →
      ParamList.get (l.extend other) n =
        match ParamList.get other n with
        | some p => some p
        | none => ParamList.get l n := by
  induction other with
  | nil => intro l n _; simp [ParamList.extend, ParamList.get, List.find?]
  | cons p rest ih =>
    intro l n h
    simp only [List.map, List.nodup_cons] at h
    have hx : ParamList.extend l (p :: rest) =
        ParamList.extend (l.insertOver p) rest := rfl
    rw [hx, ih _ n h.2]
    by_cases hn : p.name = n
    · subst hn
      have hrest : ParamList.get rest p.name = none :=
        ParamList.get_eq_none rest p.name h.1
      have hph : ParamList.get (p :: rest) p.name = some p := by
        simp [ParamList.get, List.find?]
      rw [hrest, hph]
      simpa using ParamList.get_insertOver_same l p
    · have hhead : ParamList.get (p :: rest) n = ParamList.get rest n := by
        simp [ParamList.get, List.find?, hn]
      rw [hhead]
      cases hr : ParamList.get rest n with
      | some q => simp [hr]
      | none => simp [hr, ParamList.get_insertOver_ne l p n (Ne.symm hn)]

/-- Lookup after insertion under the same key (association-list `HashMap`). -/
theorem lookupKV_insertKV_same {α : Type} (l : List (String × α)) (k : String)
    (v : α) : lookupKV (insertKV l k v) k = some v := by
  induction l with
  | nil => simp [insertKV, lookupKV, List.find?]
  | cons e l ih =>
    by_cases h : e.1 = k
    · simp [insertKV, h, lookupKV, List.find?]
    · simp only [insertKV, if_neg h]
      simpa [lookupKV, List.find?, h] using ih

/-- Running a concatenation of directive sequences: the second part runs from
the first part's final configuration; failures of the first part abort. -/
theorem run_append (orc : TrigOracle) (xs ys : List Element) :
    ∀ cfg : Config,
      run orc cfg (xs ++ ys) =
        match run orc cfg xs with
        | RunOut.ok cfg' => run orc cfg' ys
        | out => out := by
  induction xs with
  | nil => intro cfg; simp [run]
  | cons e xs ih =>
    intro cfg
    simp only [List.cons_append, run]
    cases hstep : step orc cfg.state cfg.regs e with
    | ok s' r' => simpa using ih ⟨s', cfg.stack, r'⟩
    | err er => simp
    | panic => simp
    | scopeBegin => simpa using ih ⟨cfg.state, cfg.state :: cfg.stack, cfg.regs⟩
    | scopeEnd =>
      cases cfg.stack with
      | nil => simp
      | cons s' stk => simpa using ih ⟨s', stk, cfg.regs⟩
    | pushInclude p => simp

/-- Frame property of the attribute-scope stack: a successful run never
inspects stack entries below those it pushed itself, so extra entries below
pass through untouched. -/
theorem run_stack_frame (orc : TrigOracle) (mid : List Element) :
    ∀ (s : State) (stk : List State) (r : Regs) (s' : State)
      (stk' : List State) (r' : Regs) (q : List State),
      run orc ⟨s, stk, r⟩ mid = RunOut.ok ⟨s', stk', r'⟩ →
      run orc ⟨s, stk ++ q, r⟩ mid = RunOut.ok ⟨s', stk' ++ q, r'⟩ := by
  induction mid with
  | nil =>
    intro s stk r s' stk' r' q h
    simp only [run, RunOut.ok.injEq, Config.mk.injEq] at h
    obtain ⟨h1, h2, h3⟩ := h
    subst h1; subst h2; subst h3
    simp [run]
  | cons e mid ih =>
    intro s stk r s' stk' r' q h
    simp only [run] at h ⊢
    cases hstep : step orc s r e with
    | ok s1 r1 =>
      rw [hstep] at h
      exact ih s1 stk r1 s' stk' r' q h
    | err er => rw [hstep] at h; simp at h
    | panic => rw [hstep] at h; simp at h
    | scopeBegin =>
      rw [hstep] at h
      simpa using ih s (s :: stk) r s' stk' r' q h
    | scopeEnd =>
      rw [hstep] at h
      cases stk with
      | nil => simp at h
      | cons s1 stk1 =>
        simp only [List.cons_append]
        exact ih s1 stk1 r s' stk' r' q h
    | pushInclude p => rw [hstep] at h; simp at h

/-- Processing `N` `AttributeBegin` directives pushes `N` copies of the
current state and changes nothing else. -/
theorem run_replicate_begin (orc : TrigOracle) (N : Nat) (s : State)
    (stk : List State) (r : Regs) :
    run orc ⟨s, stk, r⟩ (List.replicate N Element.attributeBegin) =
      RunOut.ok ⟨s, List.replicate N s ++ stk, r⟩ := by
  induction N generalizing stk with
  | zero => simp [run]
  | succ N ih =>
    rw [List.replicate_succ]
    simp only [run, step]
    rw [ih (s :: stk)]
    rw [List.replicate_succ']
    simp

/-- Processing `N` `AttributeEnd` directives pops `N` equal stack entries
back into the current state. -/
theorem run_replicate_end_eq (orc : TrigOracle) (s : State) (r : Regs) :
    ∀ (N : Nat) (stk : List State),
      run orc ⟨s, List.replicate N s ++ stk, r⟩
        (List.replicate N Element.attributeEnd) = RunOut.ok ⟨s, stk, r⟩ := by
  intro N
  induction N with
  | zero => intro stk; simp [run]
  | succ N ih =>
    intro stk
    rw [List.replicate_succ, List.replicate_succ]
    simp only [List.cons_append, run, step]
    exact ih stk

/-- Processing `N+1` `AttributeEnd` directives from a stack whose top `N+1`
entries all equal `s` discards the current state and ends in state `s`. -/
theorem run_replicate_end_pop (orc : TrigOracle) (s0 s : State) (r : Regs)
    (N : Nat) (stk : List State) :
    run orc ⟨s0, List.replicate (N + 1) s ++ stk, r⟩
      (List.replicate (N + 1) Element.attributeEnd) =
      RunOut.ok ⟨s, stk, r⟩ := by
  rw [List.replicate_succ, List.replicate_succ]
  simp only [List.cons_append, run, step]
  exact run_replicate_end_eq orc s r N stk

/-- Lists the splitting `splitLastDot` declares dot-free really are dot-free. -/
theorem splitLastDot_none_not_mem :
    ∀ cs : List Char, splitLastDot cs = none → '.' ∉ cs := by
  intro cs
  induction cs with
  | nil => simp
  | cons c cs ih =>
    intro h
    simp only [splitLastDot] at h
    cases hs : splitLastDot cs with
    | some ba => rw [hs] at h; simp at h
    | none =>
      rw [hs] at h
      by_cases hc : c = '.'
      · simp [hc] at h
      · simp only [List.mem_cons, not_or]
        exact ⟨fun hx => hc hx.symm, ih hs⟩

/-- The part of a name after its last dot contains no dot. -/
theorem splitLastDot_after_no_dot :
    ∀ (cs b a : List Char), splitLastDot cs = some (b, a) → '.' ∉ a := by
  intro cs
  induction cs with
  | nil => intro b a h; simp [splitLastDot] at h
  | cons c cs ih =>
    intro b a h
    simp only [splitLastDot] at h
    cases hs : splitLastDot cs with
    | some ba =>
      rw [hs] at h
      obtain ⟨b', a'⟩ := ba
      simp only [Option.some.injEq, Prod.mk.injEq] at h
      exact h.2 ▸ ih b' a' hs
    | none =>
      rw [hs] at h
      by_cases hc : c = '.'
      · rw [if_pos hc] at h
        simp only [Option.some.injEq, Prod.mk.injEq] at h
        exact h.2 ▸ splitLastDot_none_not_mem cs hs
      · simp [hc] at h

/-- The gzip check of the `Include` arm can never fire: a Rust
`Path::extension` value contains no dot, so it never ends with `".gz"`. -/
theorem gzCheckTriggers_false (name : List Char) :
    gzCheckTriggers name = false := by
  unfold gzCheckTriggers extension
  cases hsplit : splitLastDot name with
  | none => simp
  | some ba =>
    obtain ⟨b, a⟩ := ba
    by_cases hb : b = []
    · simp [hb]
    · simp only [if_neg hb]
      have hdot : '.' ∉ a := splitLastDot_after_no_dot name b a hsplit
      cases hsuf : List.isSuffixOf ".gz".toList a with
      | false => rfl
      | true =>
        exfalso
        have hsuffix : ".gz".toList <:+ a :=
          List.isSuffixOf_iff_suffix.mp hsuf
        exact hdot (hsuffix.subset (by decide))

/-! ### Claims -/

/-- C1: for every resource-defining directive, the inline parameter table is
merged with the matching category's attribute-scope-inherited table by
overwrite, the inherited table's entries winning over directive-local entries
of the same name; in particular a `Shape` with inline `"float radius" [1]`
inside a scope where `Attribute "shape" "float radius" [2]` was issued
resolves `radius` to `2`. -/
theorem c1_inherited_params_win (l other : ParamList) (n : String)
    (h : (other.map Param.name).Nodup) :
    (ParamList.get (l.extend other) n =
      match ParamList.get other n with
      | some p => some p
      | none => ParamList.get l n) ∧
    ((match run defaultOracle initConfig
        [Element.attribute "shape" [floatParam "radius" [2]],
         Element.shape "sphere" [floatParam "radius" [1]]] with
      | RunOut.ok cfg =>
        cfg.regs.scene.shapes.map fun e => ParamList.floats e.params.params "radius"
      | _ => []) = [some [2]]) := by
  constructor
  · exact ParamList.get_extend other l n h
  · norm_num [run, step, initConfig, defaultState, defaultRegs, defaultScene,
      floatParam, ParamList.extend, ParamList.insertOver, ParamList.get,
      ParamList.floats, Param.as_floats, List.find?]

/-- Witness for C1 at the concrete radius tables. -/
theorem c1_inherited_params_win_witness :
    (ParamList.get
        (ParamList.extend [floatParam "radius" [1]] [floatParam "radius" [2]])
        "radius" =
      match ParamList.get [floatParam "radius" [2]] "radius" with
      | some p => some p
      | none => ParamList.get [floatParam "radius" [1]] "radius") ∧
    ((match run defaultOracle initConfig
        [Element.attribute "shape" [floatParam "radius" [2]],
         Element.shape "sphere" [floatParam "radius" [1]]] with
      | RunOut.ok cfg =>
        cfg.regs.scene.shapes.map fun e => ParamList.floats e.params.params "radius"
      | _ => []) = [some [2]]) :=
  c1_inherited_params_win [floatParam "radius" [1]] [floatParam "radius" [2]]
    "radius" (by simp [floatParam])

/-- C2: `Translate`, `Scale`, `Rotate` and `LookAt` each right-multiply the
current transform by the corresponding matrix, and from the identity,
`Translate 1 0 0` then `Scale 2 2 2` yields
`translation(1,0,0) * scale(2,2,2)`, not the reverse product. -/
theorem c2_transforms_right_multiply :
    (∀ (orc : TrigOracle) (s : State) (r : Regs) (v : Vec3),
      step orc s r (Element.translate v) =
        StepOut.ok
          { s with
            transform_matrix := s.transform_matrix * Mat4.from_translation v }
          r) ∧
    (∀ (orc : TrigOracle) (s : State) (r : Regs) (v : Vec3),
      step orc s r (Element.scale v) =
        StepOut.ok
          { s with transform_matrix := s.transform_matrix * Mat4.from_scale v }
          r) ∧
    (∀ (orc : TrigOracle) (s : State) (r : Regs) (angle : ℚ) (v : Vec3),
      step orc s r (Element.rotate angle v) =
        StepOut.ok
          { s with
            transform_matrix :=
              s.transform_matrix * Mat4.from_axis_angle orc v angle }
          r) ∧
    (∀ (orc : TrigOracle) (s : State) (r : Regs) (eye look_at up : Vec3),
      step orc s r (Element.lookAt eye look_at up) =
        StepOut.ok
          { s with
            transform_matrix :=
              s.transform_matrix * Mat4.look_at_lh orc eye look_at up }
          r) ∧
    ((match run defaultOracle initConfig
        [Element.translate ⟨1, 0, 0⟩, Element.scale ⟨2, 2, 2⟩] with
      | RunOut.ok cfg => cfg.state.transform_matrix
      | _ => Mat4.identity) =
      Mat4.from_translation ⟨1, 0, 0⟩ * Mat4.from_scale ⟨2, 2, 2⟩) ∧
    Mat4.from_translation ⟨1, 0, 0⟩ * Mat4.from_scale ⟨2, 2, 2⟩ ≠
      Mat4.from_scale ⟨2, 2, 2⟩ * Mat4.from_translation ⟨1, 0, 0⟩ := by
  refine ⟨fun _ _ _ _ => rfl, fun _ _ _ _ => rfl, fun _ _ _ _ _ => rfl,
    fun _ _ _ _ _ _ => rfl, ?_, ?_⟩
  · norm_num [run, step, initConfig, defaultState, defaultRegs, Mat4.identity,
      Mat4.mul, Mat4.mulVec4, Vec4.add, Vec4.mulS, Mat4.from_translation,
      Mat4.from_scale, Mat4.mul_def, Mat4.mk.injEq, Vec4.mk.injEq]
  · norm_num [Mat4.from_translation, Mat4.from_scale, Mat4.mul, Mat4.mulVec4,
      Vec4.add, Vec4.mulS, Mat4.mul_def, Mat4.mk.injEq, Vec4.mk.injEq]

/-- C3 counterexample: the claim fails for a middle that is itself
scope-unbalanced.  With initial transform the identity, one `AttributeBegin`,
then the middle `AttributeEnd; Translate 1 0 0; AttributeBegin`, then one
`AttributeEnd` completes without error but leaves the transform equal to the
translation, not the pre-scope identity. -/
theorem c3_scope_restore_counterexample :
    (match run defaultOracle initConfig
        [Element.attributeBegin, Element.attributeEnd,
         Element.translate ⟨1, 0, 0⟩, Element.attributeBegin,
         Element.attributeEnd] with
      | RunOut.ok cfg => cfg.state.transform_matrix
      | _ => Mat4.identity) ≠ Mat4.identity := by
  norm_num [run, step, initConfig, defaultState, defaultRegs, Mat4.identity,
    Mat4.mul, Mat4.mulVec4, Vec4.add, Vec4.mulS, Mat4.from_translation,
    Mat4.mul_def, Mat4.mk.injEq, Vec4.mk.injEq]

/-- C3 (amended): an `AttributeEnd` with no matching `AttributeBegin` makes
the load return the unbalanced-scope error; and `N ≥ 1` `AttributeBegin`
directives followed by `N` `AttributeEnd` directives restore the current
graphics state (and scope stack) exactly, for every intervening directive
sequence that itself runs to success with a balanced scope stack. -/
theorem c3_scope_begin_end_balance (orc : TrigOracle) (s : State)
    (stk : List State) (r : Regs) :
    (∀ rest : List Element,
      run orc ⟨s, [], r⟩ (Element.attributeEnd :: rest) =
        RunOut.err Err.tooManyEndAttributes) ∧
    (∀ (N : Nat) (mid : List Element) (s' : State) (r' : Regs),
      run orc ⟨s, [], r⟩ mid = RunOut.ok ⟨s', [], r'⟩ →
      run orc ⟨s, stk, r⟩
        (List.replicate (N + 1) Element.attributeBegin ++ mid ++
          List.replicate (N + 1) Element.attributeEnd) =
        RunOut.ok ⟨s, stk, r'⟩) := by
  constructor
  · intro rest
    simp [run, step]
  · intro N mid s' r' h
    rw [List.append_assoc, run_append, run_replicate_begin]
    have hf := run_stack_frame orc mid s [] r s' [] r'
      (List.replicate (N + 1) s ++ stk) h
    simp only [List.nil_append] at hf
    dsimp only
    rw [run_append, hf]
    dsimp only
    exact run_replicate_end_pop orc s' s r' N stk

/-- Witness for C3 (amended): one begin, a translate in the middle, one
end; the graphics state and stack are restored. -/
theorem c3_scope_begin_end_balance_witness :
    run defaultOracle ⟨defaultState, [], defaultRegs⟩
      (List.replicate 1 Element.attributeBegin ++ [Element.translate ⟨1, 0, 0⟩] ++
        List.replicate 1 Element.attributeEnd) =
      RunOut.ok ⟨defaultState, [], defaultRegs⟩ :=
  (c3_scope_begin_end_balance defaultOracle defaultState [] defaultRegs).2 0
    [Element.translate ⟨1, 0, 0⟩]
    { defaultState with
      transform_matrix := Mat4.identity * Mat4.from_translation ⟨1, 0, 0⟩ }
    defaultRegs (by simp [run, step, defaultState])

/-- Sanity check that the transcribed cofactor formula really inverts: a
dense symmetric matrix times its `Mat4.inverse` is the identity. -/
theorem inverse_left_inverse_dense :
    Mat4.inverse ⟨⟨3, 1, 2, 1⟩, ⟨1, 4, 1, 2⟩, ⟨2, 1, 5, 1⟩, ⟨1, 2, 1, 6⟩⟩ *
      (⟨⟨3, 1, 2, 1⟩, ⟨1, 4, 1, 2⟩, ⟨2, 1, 5, 1⟩, ⟨1, 2, 1, 6⟩⟩ : Mat4) =
      Mat4.identity := by
  norm_num [Mat4.inverse, Mat4.identity, Mat4.mul, Mat4.mulVec4, Vec4.add,
    Vec4.sub, Vec4.mulS, Vec4.mulV, Mat4.mul_def, Mat4.mk.injEq, Vec4.mk.injEq]

/-- Sanity check on a translation: the transcribed inverse of
`translation(1,2,3)` is `translation(-1,-2,-3)`. -/
theorem inverse_translation_eval :
    (Mat4.from_translation ⟨1, 2, 3⟩).inverse =
      Mat4.from_translation ⟨-1, -2, -3⟩ := by
  norm_num [Mat4.inverse, Mat4.from_translation, Mat4.mulVec4, Vec4.add,
    Vec4.sub, Vec4.mulS, Vec4.mulV, Mat4.mk.injEq, Vec4.mk.injEq]

/-- C4: contrary to the claim, a `CoordSysTransform` naming a coordinate
system no earlier directive recorded does not make `Scene::load` return the
unknown-coordinate-system error value: the arm reaches `unimplemented!()`
(`scene.rs` 170–178) and the load panics.  The `Error::UnknownCoordinateSystem`
variant exists (`error.rs` 45–46) but is never constructed. -/
theorem c4_unknown_coord_system_panics :
    run defaultOracle initConfig [Element.coordSysTransform "foo"] =
      RunOut.panic := by
  simp [run, step, initConfig, defaultRegs, lookupKV]

/-- C5: an unresolved `NamedMaterial` name is not an error: the current
material reference silently becomes `None` and a subsequent shape carries no
material index. -/
theorem c5_unknown_named_material_silent (orc : TrigOracle) (s : State)
    (stk : List State) (r : Regs) (name ty : String) (ps : ParamList)
    (h : lookupKV r.namedMaterials name = none) :
    run orc ⟨s, stk, r⟩ [Element.namedMaterial name, Element.shape ty ps] =
      RunOut.ok ⟨{ s with material_index := none }, stk,
        { r with
          scene :=
            { r.scene with
              shapes :=
                r.scene.shapes ++
                  [⟨⟨ty, ps.extend s.shape_params⟩, s.reverse_orientation,
                    none, s.area_light_index⟩] } }⟩ := by
  simp [run, step, h]

/-- Witness for C5: empty registry, material "m", shape "sphere". -/
theorem c5_unknown_named_material_silent_witness :
    run defaultOracle ⟨defaultState, [], defaultRegs⟩
      [Element.namedMaterial "m", Element.shape "sphere" []] =
      RunOut.ok ⟨{ defaultState with material_index := none }, [],
        { defaultRegs with
          scene :=
            { defaultRegs.scene with
              shapes :=
                defaultRegs.scene.shapes ++
                  [⟨⟨"sphere", ParamList.extend [] defaultState.shape_params⟩,
                    defaultState.reverse_orientation, none,
                    defaultState.area_light_index⟩] } }⟩ :=
  c5_unknown_named_material_silent defaultOracle defaultState [] defaultRegs
    "m" "sphere" [] (by simp [defaultRegs, lookupKV])

/-- C6: contrary to the claim (and to the comment in the `Include` arm), an
include whose file name has a `.gz` suffix never takes the unsupported-feature
path: Rust's `Path::extension` strips the dot, so the extension can never end
with the three-character suffix `".gz"` and the `todo!("Gzip compression")`
branch is unreachable; the compressed bytes are handed on as scene text. -/
theorem c6_gz_fail_fast_unreachable :
    gzCheckTriggers "scene.pbrt.gz".toList = false ∧
    ∀ name : List Char, gzCheckTriggers name = false :=
  ⟨gzCheckTriggers_false _, gzCheckTriggers_false⟩

/-- C7: processing a `Camera` directive stores the inverse of the current
transform as the scene camera's transform and records that same inverse in
the named-coordinate-system table under `"camera"`, where a later lookup
(`CoordSysTransform "camera"`) finds it. -/
theorem c7_camera_stores_inverse :
    (∀ (orc : TrigOracle) (s : State) (r : Regs) (ty : String)
      (ps : ParamList),
      step orc s r (Element.camera ty ps) =
        StepOut.ok s
          { r with
            coordSystems :=
              insertKV r.coordSystems "camera" s.transform_matrix.inverse
            scene :=
              { r.scene with
                camera := some ⟨⟨ty, ps⟩, s.transform_matrix.inverse⟩ } }) ∧
    (∀ (l : List (String × Mat4)) (mat : Mat4),
      lookupKV (insertKV l "camera" mat) "camera" = some mat) :=
  ⟨fun _ _ _ _ _ => rfl, fun l mat => lookupKV_insertKV_same l "camera" mat⟩

/-- C8: a directive's trailing parameter list containing two parameters with
the same name makes the list-reading loop fail with the duplicate-parameter
error, which `Parser::parse_next` propagates. -/
theorem c8_duplicate_param_name_errors (ps : List Param)
    (h : ¬ (ps.map Param.name).Nodup) :
    read_param_list ps = Except.error Err.duplicatedParamName := by
  have general :
      ∀ (rest : List Param) (acc : ParamList),
        ((∃ p ∈ rest, acc.any fun q => q.name = p.name) ∨
          ¬ (rest.map Param.name).Nodup) →
        read_param_list_from acc rest =
          Except.error Err.duplicatedParamName := by
    intro rest
    induction rest with
    | nil =>
      intro acc hcase
      rcases hcase with ⟨p, hp, _⟩ | hnd
      · exact absurd hp (List.not_mem_nil p)
      · exact absurd List.nodup_nil hnd
    | cons p rest ih =>
      intro acc hcase
      by_cases hdup : acc.any fun q => q.name = p.name
      · simp [read_param_list_from, ParamList.add, hdup]
      · have hadd : ParamList.add acc p = Except.ok (acc ++ [p]) := by
          simp [ParamList.add, hdup]
        simp only [read_param_list_from, hadd]
        apply ih (acc ++ [p])
        rcases hcase with ⟨x, hx, hx2⟩ | hnd
        · rcases List.mem_cons.mp hx with hxp | hxrest
          · exact absurd (hxp ▸ hx2) hdup
          · refine Or.inl ⟨x, hxrest, ?_⟩
            rcases List.any_eq_true.mp hx2 with ⟨q, hq, hq2⟩
            exact List.any_eq_true.mpr ⟨q, List.mem_append_left _ hq, hq2⟩
        · rw [List.map_cons, List.nodup_cons] at hnd
          push_neg at hnd
          by_cases hmem : p.name ∈ rest.map Param.name
          · rcases List.mem_map.mp hmem with ⟨x, hx, hx2⟩
            refine Or.inl ⟨x, hx, ?_⟩
            refine List.any_eq_true.mpr ⟨p, List.mem_append_right _ ?_, ?_⟩
            · simp
            · simp [hx2]
          · exact Or.inr (hnd hmem)
  exact general ps [] (Or.inr h)

/-- Witness for C8: two parameters both named "radius". -/
theorem c8_duplicate_param_name_errors_witness :
    ¬ (([floatParam "radius" [1], floatParam "radius" [2]]).map
        Param.name).Nodup ∧
    read_param_list [floatParam "radius" [1], floatParam "radius" [2]] =
      Except.error Err.duplicatedParamName :=
  ⟨by simp [floatParam],
    c8_duplicate_param_name_errors
      [floatParam "radius" [1], floatParam "radius" [2]]
      (by simp [floatParam])⟩

/-- C9: `WorldBegin` resets the current transform to the identity matrix in
addition to entering the world phase. -/
theorem c9_world_begin_resets_ctm (orc : TrigOracle) (s : State) (r : Regs) :
    step orc s r Element.worldBegin =
      StepOut.ok { s with transform_matrix := Mat4.identity }
        { r with isWorldBlock := true } := rfl

/-- C10: an `Attribute` directive whose target is none of "shape", "light",
"material", "medium", "texture" reaches the `unimplemented!()` branch: the
load panics rather than applying the parameters or returning an error
value. -/
theorem c10_attribute_unknown_target_panics (orc : TrigOracle) (s : State)
    (r : Regs) (t : String) (ps : ParamList) (h1 : t ≠ "shape")
    (h2 : t ≠ "light") (h3 : t ≠ "material") (h4 : t ≠ "medium")
    (h5 : t ≠ "texture") :
    step orc s r (Element.attribute t ps) = StepOut.panic := by
  simp [step, h1, h2, h3, h4, h5]

/-- Witness for C10 at target "object". -/
theorem c10_attribute_unknown_target_panics_witness :
    ("object" ≠ "shape") ∧
    step defaultOracle defaultState defaultRegs
      (Element.attribute "object" []) = StepOut.panic :=
  ⟨by decide,
    c10_attribute_unknown_target_panics defaultOracle defaultState defaultRegs
      "object" [] (by decide) (by decide) (by decide) (by decide) (by decide)⟩

end Pbrt4
